import Mathlib

set_option maxHeartbeats 1000000

/-!
A shallow embedding of the pinpoint conversion library (src/src/pinned.rs and
src/src/lib.rs): the IntoPin rule table transcribed as an inductive relation
over ownership shapes, an address-based heap model of the non-allocating
conversions, a UTF-8 byte model of the text-to-byte bridge, and a model of
the runtime-checked cell guards the library wraps.
-/

/-- Content atoms that can stand under a pin. `elem` is the generic type
parameter `T` of the impls (its Unpin status is the flag `r` threaded through
the rule table); the others are the concrete always-Unpin contents used by
specific impls: `str`, `[u8]`, `OsStr` and `Path`. -/
inductive Atom
  | elem
  | strC
  | bytesC
  | osC
  | pathC
  deriving DecidableEq, Repr

/-- Ownership and reference shapes a value can be held in, mirroring the
source and target types of the IntoPin impls in src/src/pinned.rs:
references, pins, Box, Rc, Arc, Vec, String, OsString, PathBuf, Cow, Cell,
RefCell guards (Ref and RefMut) and fixed-length arrays. -/
inductive Shape
  | atom (a : Atom)
  | ref (s : Shape)
  | mref (s : Shape)
  | pin (s : Shape)
  | boxed (s : Shape)
  | rc (s : Shape)
  | arc (s : Shape)
  | vec
  | string
  | osstring
  | pathbuf
  | cow (s : Shape)
  | cell (s : Shape)
  | refg (s : Shape)
  | refmutg (s : Shape)
  | arr (n : Nat)
  deriving DecidableEq, Repr

/-- Whether the Rust type denoted by a shape is Unpin, given the flag `r`
for the generic element type `T`. References, smart pointers and the std
container types are unconditionally Unpin; `Pin<P>` and `Cell<T>` are Unpin
exactly when their content is; a fixed array `[T; n]` and the slice content
`[T]` inherit the element's status. -/
def shapeUnpin (r : Bool) : Shape → Bool
  | .atom .elem => r
  | .atom _ => true
  | .ref _ => true
  | .mref _ => true
  | .pin s => shapeUnpin r s
  | .boxed _ => true
  | .rc _ => true
  | .arc _ => true
  | .vec => true
  | .string => true
  | .osstring => true
  | .pathbuf => true
  | .cow _ => true
  | .cell s => shapeUnpin r s
  | .refg _ => true
  | .refmutg _ => true
  | .arr _ => r

/-- Whether holding a value of this shape grants the holder mutable access
to the underlying pinned content: owned containers and exclusive chains do,
shared references, shared-ownership handles (Rc, Arc) and immutable RefCell
guards do not. -/
def mutAccess : Shape → Bool
  | .atom _ => true
  | .ref _ => false
  | .mref s => mutAccess s
  | .pin s => mutAccess s
  | .boxed s => mutAccess s
  | .rc _ => false
  | .arc _ => false
  | .vec => true
  | .string => true
  | .osstring => true
  | .pathbuf => true
  | .cow _ => true
  | .cell _ => true
  | .refg _ => false
  | .refmutg s => mutAccess s
  | .arr _ => true

/-- Whether a shape goes through a shared-ownership handle (Rc or Arc). -/
def containsShared : Shape → Bool
  | .atom _ => false
  | .ref s => containsShared s
  | .mref s => containsShared s
  | .pin s => containsShared s
  | .boxed s => containsShared s
  | .rc _ => true
  | .arc _ => true
  | .vec => false
  | .string => false
  | .osstring => false
  | .pathbuf => false
  | .cow s => containsShared s
  | .cell s => containsShared s
  | .refg s => containsShared s
  | .refmutg s => containsShared s
  | .arr _ => false

/-- The fixed-array lengths enumerated by the impl_array! invocation at
src/src/pinned.rs 781-784. -/
def arrayLens : List Nat :=
  [0, 1, 2, 3, 4, 5, 6, 7, 8, 9, 10, 11, 12, 13, 14, 15, 16, 17, 18, 19, 20,
   21, 22, 23, 24, 25, 26, 27, 28, 29, 30, 31, 32]

/-- The IntoPin conversion table of src/src/pinned.rs, one constructor per
impl (the feature-gated slice_of_cells impls at 736-748 are not compiled by
default and are not part of the table). `r` is the Unpin (Relocatable)
status of the generic element type `T`; an impl whose source text bounds a
type parameter by Unpin carries the corresponding hypothesis. A rule
`Rule r s t` means the table converts a value held in shape `s` into the
pinned shape `t`. -/
inductive Rule (r : Bool) : Shape → Shape → Prop
  -- pinned.rs 60: IntoPin<T> for Pin<T>, T: Unpin; returns self
  | pin_self (s) (h : shapeUnpin r s = true) : Rule r (.pin s) (.pin s)
  -- pinned.rs 67: IntoPin<&T> for Pin<&mut T>, T: Unpin
  | pin_mut_narrow (s) (h : shapeUnpin r s = true) :
      Rule r (.pin (.mref s)) (.pin (.ref s))
  -- pinned.rs 74: IntoPin<&T> for &Pin<&T>
  | ref_pin_ref (s) (h : shapeUnpin r s = true) :
      Rule r (.ref (.pin (.ref s))) (.pin (.ref s))
  -- pinned.rs 82: IntoPin<&T> for &mut Pin<&T>
  | mref_pin_ref (s) (h : shapeUnpin r s = true) :
      Rule r (.mref (.pin (.ref s))) (.pin (.ref s))
  -- pinned.rs 90: IntoPin<&mut T> for &mut Pin<&mut T>
  | mref_pin_mut_mut (s) (h : shapeUnpin r s = true) :
      Rule r (.mref (.pin (.mref s))) (.pin (.mref s))
  -- pinned.rs 98: IntoPin<&T> for &mut Pin<&mut T>
  | mref_pin_mut_ref (s) (h : shapeUnpin r s = true) :
      Rule r (.mref (.pin (.mref s))) (.pin (.ref s))
  -- pinned.rs 106: IntoPin<&T> for &Pin<&mut T>
  | ref_pin_mut_ref (s) (h : shapeUnpin r s = true) :
      Rule r (.ref (.pin (.mref s))) (.pin (.ref s))
  -- pinned.rs 118: IntoPin<&T> for &T, T: Unpin
  | ref_wrap (s) (h : shapeUnpin r s = true) : Rule r (.ref s) (.pin (.ref s))
  -- pinned.rs 125: IntoPin<&T> for &mut T, T: Unpin
  | mref_narrow (s) (h : shapeUnpin r s = true) : Rule r (.mref s) (.pin (.ref s))
  -- pinned.rs 132: IntoPin<&mut T> for &mut T, T: Unpin
  | mref_wrap (s) (h : shapeUnpin r s = true) : Rule r (.mref s) (.pin (.mref s))
  -- pinned.rs 144: IntoPin<Box<T>> for T, no Unpin bound
  | val_box (s) : Rule r s (.pin (.boxed s))
  -- pinned.rs 151: IntoPin<Arc<T>> for T, no Unpin bound
  | val_arc (s) : Rule r s (.pin (.arc s))
  -- pinned.rs 158: IntoPin<Rc<T>> for T, no Unpin bound
  | val_rc (s) : Rule r s (.pin (.rc s))
  -- pinned.rs 170: IntoPin<Vec<T>> for Vec<T>, T: Unpin
  | vec_self (h : r = true) : Rule r .vec (.pin .vec)
  -- pinned.rs 177: IntoPin<Box<[T]>> for Vec<T>, T: Unpin
  | vec_boxed_slice (h : r = true) : Rule r .vec (.pin (.boxed (.atom .elem)))
  -- pinned.rs 184: IntoPin<&[T]> for &Vec<T>, T: Unpin
  | ref_vec_slice (h : r = true) : Rule r (.ref .vec) (.pin (.ref (.atom .elem)))
  -- pinned.rs 191: IntoPin<&[T]> for &mut Vec<T>, T: Unpin
  | mref_vec_slice (h : r = true) : Rule r (.mref .vec) (.pin (.ref (.atom .elem)))
  -- pinned.rs 198: IntoPin<&mut [T]> for &mut Vec<T>, T: Unpin
  | mref_vec_mut_slice (h : r = true) :
      Rule r (.mref .vec) (.pin (.mref (.atom .elem)))
  -- pinned.rs 210: IntoPin<String> for String
  | string_self : Rule r .string (.pin .string)
  -- pinned.rs 217: IntoPin<Box<str>> for String
  | string_boxed_str : Rule r .string (.pin (.boxed (.atom .strC)))
  -- pinned.rs 224: IntoPin<Vec<u8>> for String (into_bytes)
  | string_byte_vec : Rule r .string (.pin .vec)
  -- pinned.rs 231: IntoPin<&str> for &String
  | ref_string_str : Rule r (.ref .string) (.pin (.ref (.atom .strC)))
  -- pinned.rs 238: IntoPin<&str> for &mut String
  | mref_string_str : Rule r (.mref .string) (.pin (.ref (.atom .strC)))
  -- pinned.rs 245: IntoPin<&mut str> for &mut String
  | mref_string_mut_str : Rule r (.mref .string) (.pin (.mref (.atom .strC)))
  -- pinned.rs 252: IntoPin<&[u8]> for &String
  | ref_string_bytes : Rule r (.ref .string) (.pin (.ref (.atom .bytesC)))
  -- pinned.rs 264: IntoPin<&[u8]> for &str (as_bytes)
  | ref_str_bytes : Rule r (.ref (.atom .strC)) (.pin (.ref (.atom .bytesC)))
  -- pinned.rs 270: IntoPin<&[u8]> for &mut str (as_bytes)
  | mref_str_bytes : Rule r (.mref (.atom .strC)) (.pin (.ref (.atom .bytesC)))
  -- pinned.rs 276: IntoPin<&OsStr> for &str
  | ref_str_os : Rule r (.ref (.atom .strC)) (.pin (.ref (.atom .osC)))
  -- pinned.rs 282: IntoPin<&OsStr> for &mut str
  | mref_str_os : Rule r (.mref (.atom .strC)) (.pin (.ref (.atom .osC)))
  -- pinned.rs 288: IntoPin<&Path> for &str
  | ref_str_path : Rule r (.ref (.atom .strC)) (.pin (.ref (.atom .pathC)))
  -- pinned.rs 294: IntoPin<&Path> for &mut str
  | mref_str_path : Rule r (.mref (.atom .strC)) (.pin (.ref (.atom .pathC)))
  -- pinned.rs 305: IntoPin<PathBuf> for PathBuf
  | pathbuf_self : Rule r .pathbuf (.pin .pathbuf)
  -- pinned.rs 312: IntoPin<Box<Path>> for PathBuf
  | pathbuf_boxed_path : Rule r .pathbuf (.pin (.boxed (.atom .pathC)))
  -- pinned.rs 319: IntoPin<OsString> for PathBuf
  | pathbuf_osstring : Rule r .pathbuf (.pin .osstring)
  -- pinned.rs 326: IntoPin<&Path> for &PathBuf
  | ref_pathbuf_path : Rule r (.ref .pathbuf) (.pin (.ref (.atom .pathC)))
  -- pinned.rs 333: IntoPin<&Path> for &mut PathBuf
  | mref_pathbuf_path : Rule r (.mref .pathbuf) (.pin (.ref (.atom .pathC)))
  -- pinned.rs 340: IntoPin<&OsStr> for &PathBuf
  | ref_pathbuf_os : Rule r (.ref .pathbuf) (.pin (.ref (.atom .osC)))
  -- pinned.rs 347: IntoPin<&OsStr> for &mut PathBuf
  | mref_pathbuf_os : Rule r (.mref .pathbuf) (.pin (.ref (.atom .osC)))
  -- pinned.rs 359: IntoPin<&OsStr> for &Path
  | ref_path_os : Rule r (.ref (.atom .pathC)) (.pin (.ref (.atom .osC)))
  -- pinned.rs 366: IntoPin<&OsStr> for &mut Path
  | mref_path_os : Rule r (.mref (.atom .pathC)) (.pin (.ref (.atom .osC)))
  -- pinned.rs 378: IntoPin<OsString> for OsString
  | osstring_self : Rule r .osstring (.pin .osstring)
  -- pinned.rs 385: IntoPin<Box<OsStr>> for OsString
  | osstring_boxed_os : Rule r .osstring (.pin (.boxed (.atom .osC)))
  -- pinned.rs 393: IntoPin<PathBuf> for OsString
  | osstring_pathbuf : Rule r .osstring (.pin .pathbuf)
  -- pinned.rs 400: IntoPin<&OsStr> for &OsString
  | ref_osstring_os : Rule r (.ref .osstring) (.pin (.ref (.atom .osC)))
  -- pinned.rs 407: IntoPin<&OsStr> for &mut OsString
  | mref_osstring_os : Rule r (.mref .osstring) (.pin (.ref (.atom .osC)))
  -- pinned.rs 414: IntoPin<&Path> for &OsString
  | ref_osstring_path : Rule r (.ref .osstring) (.pin (.ref (.atom .pathC)))
  -- pinned.rs 421: IntoPin<&Path> for &mut OsString
  | mref_osstring_path : Rule r (.mref .osstring) (.pin (.ref (.atom .pathC)))
  -- pinned.rs 433: IntoPin<&Path> for &OsStr
  | ref_os_path : Rule r (.ref (.atom .osC)) (.pin (.ref (.atom .pathC)))
  -- pinned.rs 445: IntoPin<Box<T>> for Box<T>, T: ?Sized, no Unpin bound
  | box_self (s) : Rule r (.boxed s) (.pin (.boxed s))
  -- pinned.rs 452: IntoPin<&T> for &Box<T>, T: Unpin
  | ref_box_deref (s) (h : shapeUnpin r s = true) :
      Rule r (.ref (.boxed s)) (.pin (.ref s))
  -- pinned.rs 459: IntoPin<&T> for &mut Box<T>, T: Unpin
  | mref_box_ref (s) (h : shapeUnpin r s = true) :
      Rule r (.mref (.boxed s)) (.pin (.ref s))
  -- pinned.rs 466: IntoPin<&mut T> for &mut Box<T>, T: Unpin
  | mref_box_mut (s) (h : shapeUnpin r s = true) :
      Rule r (.mref (.boxed s)) (.pin (.mref s))
  -- pinned.rs 473: IntoPin<Box<[u8]>> for Box<str>
  | boxed_str_bytes : Rule r (.boxed (.atom .strC)) (.pin (.boxed (.atom .bytesC)))
  -- pinned.rs 480: IntoPin<Vec<T>> for Box<[T]>, T: Unpin
  | boxed_slice_vec (h : r = true) : Rule r (.boxed (.atom .elem)) (.pin .vec)
  -- pinned.rs 487: IntoPin<OsString> for Box<OsStr>
  | boxed_os_osstring : Rule r (.boxed (.atom .osC)) (.pin .osstring)
  -- pinned.rs 494: IntoPin<PathBuf> for Box<Path>
  | boxed_path_pathbuf : Rule r (.boxed (.atom .pathC)) (.pin .pathbuf)
  -- pinned.rs 507: IntoPin<Cow<T>> for Cow<T>, T: Clone + Unpin
  | cow_self (s) (h : shapeUnpin r s = true) : Rule r (.cow s) (.pin (.cow s))
  -- pinned.rs 514: IntoPin<&T> for &Cow<T>, T: Clone + Unpin
  | ref_cow (s) (h : shapeUnpin r s = true) : Rule r (.ref (.cow s)) (.pin (.ref s))
  -- pinned.rs 521: IntoPin<&T> for &mut Cow<T>, T: Clone + Unpin
  | mref_cow (s) (h : shapeUnpin r s = true) :
      Rule r (.mref (.cow s)) (.pin (.ref s))
  -- pinned.rs 528: IntoPin<Cow<[u8]>> for Cow<str>
  | cow_str_bytes : Rule r (.cow (.atom .strC)) (.pin (.cow (.atom .bytesC)))
  -- pinned.rs 538: IntoPin<&[u8]> for &Cow<str>
  | ref_cow_str_bytes :
      Rule r (.ref (.cow (.atom .strC))) (.pin (.ref (.atom .bytesC)))
  -- pinned.rs 546: IntoPin<&[u8]> for &mut Cow<str>
  | mref_cow_str_bytes :
      Rule r (.mref (.cow (.atom .strC))) (.pin (.ref (.atom .bytesC)))
  -- pinned.rs 559: IntoPin<Arc<T>> for Arc<T>, T: Unpin
  | arc_self (s) (h : shapeUnpin r s = true) : Rule r (.arc s) (.pin (.arc s))
  -- pinned.rs 566: IntoPin<&T> for &mut Arc<T>, T: Unpin
  | mref_arc (s) (h : shapeUnpin r s = true) : Rule r (.mref (.arc s)) (.pin (.ref s))
  -- pinned.rs 573: IntoPin<&T> for &Arc<T>, T: Unpin
  | ref_arc (s) (h : shapeUnpin r s = true) : Rule r (.ref (.arc s)) (.pin (.ref s))
  -- pinned.rs 580: IntoPin<&T> for &Arc<&T>, T: Unpin
  | ref_arc_ref (s) (h : shapeUnpin r s = true) :
      Rule r (.ref (.arc (.ref s))) (.pin (.ref s))
  -- pinned.rs 587: IntoPin<&T> for &Arc<&mut T>, T: Unpin
  | ref_arc_mref (s) (h : shapeUnpin r s = true) :
      Rule r (.ref (.arc (.mref s))) (.pin (.ref s))
  -- pinned.rs 594: IntoPin<&T> for &mut Arc<&mut T>, T: Unpin
  | mref_arc_mref (s) (h : shapeUnpin r s = true) :
      Rule r (.mref (.arc (.mref s))) (.pin (.ref s))
  -- pinned.rs 606: IntoPin<Rc<T>> for Rc<T>, T: Unpin
  | rc_self (s) (h : shapeUnpin r s = true) : Rule r (.rc s) (.pin (.rc s))
  -- pinned.rs 613: IntoPin<&T> for &mut Rc<T>, T: Unpin
  | mref_rc (s) (h : shapeUnpin r s = true) : Rule r (.mref (.rc s)) (.pin (.ref s))
  -- pinned.rs 620: IntoPin<&T> for &Rc<T>, T: Unpin
  | ref_rc (s) (h : shapeUnpin r s = true) : Rule r (.ref (.rc s)) (.pin (.ref s))
  -- pinned.rs 627: IntoPin<&T> for Rc<&T>, T: Unpin
  | rc_ref (s) (h : shapeUnpin r s = true) : Rule r (.rc (.ref s)) (.pin (.ref s))
  -- pinned.rs 634: IntoPin<&T> for &Rc<&T>, T: Unpin
  | ref_rc_ref (s) (h : shapeUnpin r s = true) :
      Rule r (.ref (.rc (.ref s))) (.pin (.ref s))
  -- pinned.rs 641: IntoPin<&T> for &mut Rc<&T>, T: Unpin
  | mref_rc_ref (s) (h : shapeUnpin r s = true) :
      Rule r (.mref (.rc (.ref s))) (.pin (.ref s))
  -- pinned.rs 653: IntoPin<Ref<T>> for Ref<T>, T: Unpin
  | refg_self (s) (h : shapeUnpin r s = true) : Rule r (.refg s) (.pin (.refg s))
  -- pinned.rs 660: IntoPin<&T> for &Ref<T>, T: Unpin
  | ref_refg (s) (h : shapeUnpin r s = true) : Rule r (.ref (.refg s)) (.pin (.ref s))
  -- pinned.rs 667: IntoPin<&T> for &mut Ref<T>, T: Unpin
  | mref_refg (s) (h : shapeUnpin r s = true) :
      Rule r (.mref (.refg s)) (.pin (.ref s))
  -- pinned.rs 679: IntoPin<RefMut<T>> for RefMut<T>, T: Unpin
  | refmutg_self (s) (h : shapeUnpin r s = true) :
      Rule r (.refmutg s) (.pin (.refmutg s))
  -- pinned.rs 686: IntoPin<&T> for &RefMut<T>, T: Unpin
  | ref_refmutg (s) (h : shapeUnpin r s = true) :
      Rule r (.ref (.refmutg s)) (.pin (.ref s))
  -- pinned.rs 693: IntoPin<&T> for &mut RefMut<T>, T: Unpin
  | mref_refmutg_ref (s) (h : shapeUnpin r s = true) :
      Rule r (.mref (.refmutg s)) (.pin (.ref s))
  -- pinned.rs 700: IntoPin<&mut T> for &mut RefMut<T>, T: Unpin
  | mref_refmutg_mut (s) (h : shapeUnpin r s = true) :
      Rule r (.mref (.refmutg s)) (.pin (.mref s))
  -- pinned.rs 712: IntoPin<&T> for &mut Cell<T>, T: Unpin
  | mref_cell_ref (s) (h : shapeUnpin r s = true) :
      Rule r (.mref (.cell s)) (.pin (.ref s))
  -- pinned.rs 718: IntoPin<&mut T> for &mut Cell<T>, T: Unpin
  | mref_cell_mut (s) (h : shapeUnpin r s = true) :
      Rule r (.mref (.cell s)) (.pin (.mref s))
  -- pinned.rs 724: IntoPin<&T> for &mut Cell<&T>, T: Unpin
  | mref_cell_inner_ref (s) (h : shapeUnpin r s = true) :
      Rule r (.mref (.cell (.ref s))) (.pin (.ref s))
  -- pinned.rs 730: IntoPin<&mut T> for &mut Cell<&mut T>, T: Unpin
  | mref_cell_inner_mut (s) (h : shapeUnpin r s = true) :
      Rule r (.mref (.cell (.mref s))) (.pin (.mref s))
  -- pinned.rs 754: IntoPin<&[T]> for &[T; n], T: Unpin, n in the invocation
  | ref_arr_slice (n) (h : r = true) (hn : n ∈ arrayLens) :
      Rule r (.ref (.arr n)) (.pin (.ref (.atom .elem)))
  -- pinned.rs 761: IntoPin<&[T]> for &mut [T; n], T: Unpin
  | mref_arr_slice (n) (h : r = true) (hn : n ∈ arrayLens) :
      Rule r (.mref (.arr n)) (.pin (.ref (.atom .elem)))
  -- pinned.rs 768: IntoPin<&mut [T]> for &mut [T; n], T: Unpin
  | mref_arr_mut_slice (n) (h : r = true) (hn : n ∈ arrayLens) :
      Rule r (.mref (.arr n)) (.pin (.mref (.atom .elem)))

/-- The AsPinMut table of src/src/lib.rs 82-149. `AsPinMutRule r c u` means
the container shape `c` implements the capability: an exclusive reference to
`c` yields a mutable pinned reference to content `u`. -/
inductive AsPinMutRule (r : Bool) : Shape → Shape → Prop
  -- lib.rs 108: AsPinMut<[T]> for [T], T: Unpin
  | slice (h : r = true) : AsPinMutRule r (.atom .elem) (.atom .elem)
  -- lib.rs 118: AsPinMut<T> for Box<T>, T: Unpin
  | box_deref (s) (h : shapeUnpin r s = true) : AsPinMutRule r (.boxed s) s
  -- lib.rs 125: AsPinMut<Box<T>> for Box<T>, T: Unpin
  | box_self (s) (h : shapeUnpin r s = true) : AsPinMutRule r (.boxed s) (.boxed s)
  -- lib.rs 136: AsPinMut<[T]> for Vec<T>, T: Unpin
  | vec_slice (h : r = true) : AsPinMutRule r .vec (.atom .elem)
  -- lib.rs 143: AsPinMut<Vec<T>> for Vec<T>, T: Unpin
  | vec_self (h : r = true) : AsPinMutRule r .vec .vec
  -- lib.rs 98: AsPinMut<U> for &mut T where T: AsPinMut<U>
  | forward (s u) (h : AsPinMutRule r s u) : AsPinMutRule r (.mref s) u

/-- One step available to a caller: apply a rule of the table, or take a
shared or an exclusive borrow of a handle the caller holds. -/
inductive Deriv (r : Bool) : Shape → Shape → Prop
  | rule {s t} (h : Rule r s t) : Deriv r s t
  | borrow (s) : Deriv r s (.ref s)
  | borrow_mut (s) : Deriv r s (.mref s)

/-- Shapes reachable from a starting shape by any sequence of steps. -/
def Reach (r : Bool) (s t : Shape) : Prop :=
  Relation.ReflTransGen (Deriv r) s t

/-! ## Address-level model of the non-allocating conversions

Every non-allocating impl body is Pin::new(self), Pin::into_ref(self) or a
reborrow of the same reference: the pinned handle wraps the very pointer it
was given. The model carries each reference as the address of the buffer it
points into, with a heap mapping addresses to buffer contents. -/

abbrev Addr := Nat

/-- The store: each address holds a buffer of values (bytes or elements). -/
abbrev Heap := Addr → List Nat

/-- A plain reference (shared or exclusive): the address it points to. -/
structure MRef where
  addr : Addr
  deriving DecidableEq, Repr

/-- A pinned reference produced by the engine. -/
structure MPinRef where
  addr : Addr
  deriving DecidableEq, Repr

/-- A growable array handle: the address of its buffer. -/
structure MVec where
  addr : Addr
  deriving DecidableEq, Repr

/-- An owned text buffer (String): the address of its byte buffer. -/
structure MString where
  addr : Addr
  deriving DecidableEq, Repr

/-- A reference to a text slice (str): the address of its byte buffer. -/
structure MStrRef where
  addr : Addr
  deriving DecidableEq, Repr

/-- A reference to a fixed-length array. -/
structure MArr (n : Nat) where
  addr : Addr
  deriving DecidableEq, Repr

/-- pinned.rs 118-123: Pin::new(self) on a shared reference. -/
def intoPinRefWrap (x : MRef) : MPinRef := ⟨x.addr⟩

/-- pinned.rs 132-137: Pin::new(self) on an exclusive reference. -/
def intoPinMutWrap (x : MRef) : MPinRef := ⟨x.addr⟩

/-- pinned.rs 67-72: Pin::into_ref(self), narrowing a mutable pin. -/
def intoPinNarrow (p : MPinRef) : MPinRef := ⟨p.addr⟩

/-- pinned.rs 90-95: Pin::new(&mut *self), reborrowing a pin. -/
def intoPinReborrow (p : MPinRef) : MPinRef := ⟨p.addr⟩

/-- pinned.rs 184-203: Pin::new(self), the Vec dereferencing to its slice. -/
def intoPinVecSlice (v : MVec) : MPinRef := ⟨v.addr⟩

/-- pinned.rs 231-250: Pin::new(self), the String dereferencing to its str. -/
def intoPinStringStr (s : MString) : MPinRef := ⟨s.addr⟩

/-- pinned.rs 754-772: Pin::new(self), the array coercing to its slice. -/
def intoPinArrSlice {n : Nat} (a : MArr n) : MPinRef := ⟨a.addr⟩

/-- Writing one element through an address: only that buffer changes. -/
def heapWrite (h : Heap) (a : Addr) (i x : Nat) : Heap :=
  fun b => if b = a then (h a).set i x else h b

/-! ## UTF-8 model of the text-to-byte bridge

A text value is a list of Unicode code points; its storage holds the UTF-8
encoding. str::as_bytes and String::into_bytes return that very storage. -/

/-- The UTF-8 encoding of one code point (1 to 4 bytes). -/
def utf8EncodeChar (c : Nat) : List Nat :=
  if c < 128 then [c]
  else if c < 2048 then [192 + c / 64, 128 + c % 64]
  else if c < 65536 then [224 + c / 4096, 128 + c / 64 % 64, 128 + c % 64]
  else [240 + c / 262144, 128 + c / 4096 % 64, 128 + c / 64 % 64, 128 + c % 64]

/-- The UTF-8 encoding of a sequence of code points. -/
def utf8Encode (cs : List Nat) : List Nat :=
  (cs.map utf8EncodeChar).flatten

/-- The buffer behind a str reference holds the UTF-8 encoding of its text. -/
def strRefHolds (h : Heap) (s : MStrRef) (cs : List Nat) : Prop :=
  h s.addr = utf8Encode cs

/-- The buffer behind an owned String holds the UTF-8 encoding of its text. -/
def stringHolds (h : Heap) (s : MString) (cs : List Nat) : Prop :=
  h s.addr = utf8Encode cs

/-- str::as_bytes: a byte view of the same buffer (no copy). -/
def strAsBytes (s : MStrRef) : MRef := ⟨s.addr⟩

/-- String::into_bytes: the String gives up its own Vec (no copy). -/
def stringIntoBytes (s : MString) : MVec := ⟨s.addr⟩

/-- pinned.rs 264-274: Pin::new(self.as_bytes()). -/
def intoPinStrBytes (s : MStrRef) : MPinRef := ⟨(strAsBytes s).addr⟩

/-- pinned.rs 224-229: Pin::new(self.into_bytes()). -/
def intoPinStringByteVec (s : MString) : MVec := stringIntoBytes s

/-! ## Model of the copy-on-write text value (Cow) -/

/-- Cow of a text slice: either borrowed storage or an owned String. -/
inductive MCowStr
  | borrowed (b : MStrRef)
  | owned (o : MString)
  deriving DecidableEq, Repr

/-- Cow of a byte sequence: either borrowed storage or an owned Vec. -/
inductive MCowBytes
  | borrowed (b : MRef)
  | owned (v : MVec)
  deriving DecidableEq, Repr

/-- pinned.rs 528-536: the Owned arm becomes Cow::Owned(o.into_bytes()), the
Borrowed arm becomes Cow::Borrowed(b.as_bytes()). -/
def intoPinCowStrBytes : MCowStr → MCowBytes
  | .owned o => .owned (stringIntoBytes o)
  | .borrowed b => .borrowed (strAsBytes b)

/-- The storage address a Cow text value uses. -/
def cowStrAddr : MCowStr → Addr
  | .borrowed b => b.addr
  | .owned o => o.addr

/-- The storage address a Cow byte value uses. -/
def cowBytesAddr : MCowBytes → Addr
  | .borrowed b => b.addr
  | .owned v => v.addr

/-- Which ownership variant a Cow text value is in. -/
def cowStrIsOwned : MCowStr → Bool
  | .borrowed _ => false
  | .owned _ => true

/-- Which ownership variant a Cow byte value is in. -/
def cowBytesIsOwned : MCowBytes → Bool
  | .borrowed _ => false
  | .owned _ => true

/-- The storage behind a Cow text value holds the encoding of its text. -/
def cowStrHolds (h : Heap) : MCowStr → List Nat → Prop
  | .borrowed b, cs => strRefHolds h b cs
  | .owned o, cs => stringHolds h o cs

/-! ## Model of the runtime-checked interior-mutable cell

The guard bookkeeping itself is an external collaborator of the library (the
spec assumes it; src/src/pinned.rs 653-705 only wraps guards that were
already acquired), so the acquire and release operations are modelled from
the spec; the wrap operation is from the source. -/

/-- Modelled from the spec: the aliasing state of a runtime-checked cell is
absent from the repository (the cell is an external collaborator); the spec
describes guards that are outstanding or released, with immutable and
mutable guards in conflict. -/
inductive GuardState
  | free
  | reading (n : Nat)
  | writing
  deriving DecidableEq, Repr

/-- A runtime-checked interior-mutable cell: its value and guard state. -/
structure MCell where
  value : Nat
  state : GuardState
  deriving DecidableEq, Repr

/-- Modelled from the spec: the distinct borrow-conflict error surfaced when
a conflicting guard is outstanding. -/
inductive CellError
  | conflict
  deriving DecidableEq, Repr

/-- Modelled from the spec: acquiring the exclusive (mutable) guard succeeds
exactly when no guard is outstanding; otherwise it fails deterministically
with the borrow-conflict error and changes nothing. -/
def acquireMut (c : MCell) : Except CellError MCell :=
  match c.state with
  | .free => .ok { c with state := .writing }
  | _ => .error .conflict

/-- Modelled from the spec: releasing one outstanding shared guard. -/
def releaseShared (c : MCell) : MCell :=
  match c.state with
  | .reading 1 => { c with state := .free }
  | .reading (n + 2) => { c with state := .reading (n + 1) }
  | _ => c

/-- An acquired exclusive guard over a cell. -/
structure MRefMutGuard where
  cell : MCell
  deriving DecidableEq, Repr

/-- A pinned guard handle. -/
structure MPinGuard where
  guard : MRefMutGuard
  deriving DecidableEq, Repr

/-- pinned.rs 679-684: Pin::new(self) wraps the acquired guard unchanged. -/
def intoPinRefMutGuard (g : MRefMutGuard) : MPinGuard := ⟨g⟩

/-! ## The pin-of-pin identity (pinned.rs 60-65) -/

/-- A pinned handle over an arbitrary pointer value. -/
structure MPin (α : Type) where
  ptr : α
  deriving DecidableEq, Repr

/-- pinned.rs 60-65: into_pin on a value that is already a pin returns self. -/
def intoPinPinSelf {α : Type} (p : MPin α) : MPin α := p

/-- The byte buffer of the text "hello". -/
def helloBytes : List Nat := [104, 101, 108, 108, 111]

/-- A store whose buffers all hold the bytes of "hello". -/
def helloHeap : Heap := fun _ => helloBytes

/-! ## Theorems -/

/-- Every rule of the table that grants mutable access to the pinned content
in its target already had mutable access in its source. -/
theorem rule_preserves_mut_access {r : Bool} {s t : Shape} (h : Rule r s t)
    (hm : mutAccess t = true) : mutAccess s = true := by
  cases h <;> simp_all [mutAccess]

/-- A single step of a caller never creates mutable access to the pinned
content out of a shape that lacks it. -/
theorem deriv_preserves_mut_access {r : Bool} {s t : Shape} (h : Deriv r s t)
    (hm : mutAccess t = true) : mutAccess s = true := by
  cases h with
  | rule hr => exact rule_preserves_mut_access hr hm
  | borrow => simp [mutAccess] at hm
  | borrow_mut => simpa [mutAccess] using hm

/-- No sequence of steps creates mutable access to the pinned content. -/
theorem reach_preserves_mut_access {r : Bool} {s t : Shape} (h : Reach r s t)
    (hs : mutAccess s = false) : mutAccess t = false := by
  induction h with
  | refl => exact hs
  | @tail b c _ hbc ih =>
    cases hmt : mutAccess c with
    | false => rfl
    | true => exact absurd (deriv_preserves_mut_access hbc hmt) (by simp [ih])

/-- C9: applying the into-pin conversion to a value that is already a pin is
the identity (src/src/pinned.rs 60-65 returns self), producing a handle
identical to the input, and the table contains the corresponding identity
rule for every pinned shape. -/
theorem c9_pin_into_pin_identity :
    (∀ (α : Type) (p : MPin α), intoPinPinSelf p = p)
  ∧ (∀ (r : Bool) (s : Shape), shapeUnpin r s = true → Rule r (.pin s) (.pin s)) :=
  ⟨fun _ _ => rfl, fun _ s h => Rule.pin_self s h⟩

/-- C7: every non-allocating rule (reference wrap, mutable-to-immutable
narrow, pin reborrow, container dereference to a slice or str view) wraps
the very reference it is given, so the pinned handle's address equals the
source's, and a write through the pinned mutable slice view is a write to
the source container's own buffer. -/
theorem c7_non_allocating_rules_preserve_address :
    (∀ x : MRef, (intoPinRefWrap x).addr = x.addr ∧ (intoPinMutWrap x).addr = x.addr)
  ∧ (∀ p : MPinRef, (intoPinNarrow p).addr = p.addr ∧ (intoPinReborrow p).addr = p.addr)
  ∧ (∀ v : MVec, (intoPinVecSlice v).addr = v.addr)
  ∧ (∀ s : MString, (intoPinStringStr s).addr = s.addr)
  ∧ (∀ (h : Heap) (v : MVec) (i x : Nat),
      heapWrite h (intoPinVecSlice v).addr i x v.addr = (h v.addr).set i x) := by
  refine ⟨fun x => ⟨rfl, rfl⟩, fun p => ⟨rfl, rfl⟩, fun v => rfl, fun s => rfl, ?_⟩
  intro h v i x
  simp [heapWrite, intoPinVecSlice]

/-- C2: pinning a text buffer as a byte sequence yields exactly the UTF-8
encoding of its text, and both the borrowed view (str::as_bytes, pinned.rs
264-274) and the owning conversion (String::into_bytes, pinned.rs 224-229)
reuse the original storage address, with the corresponding table rules
present. -/
theorem c2_text_to_bytes_zero_copy (h : Heap) (s : MStrRef) (o : MString)
    (cs ds : List Nat) (hs : strRefHolds h s cs) (ho : stringHolds h o ds) :
    h (intoPinStrBytes s).addr = utf8Encode cs
  ∧ (intoPinStrBytes s).addr = s.addr
  ∧ h (intoPinStringByteVec o).addr = utf8Encode ds
  ∧ (intoPinStringByteVec o).addr = o.addr
  ∧ Rule true (.ref (.atom .strC)) (.pin (.ref (.atom .bytesC)))
  ∧ Rule true .string (.pin .vec) :=
  ⟨hs, rfl, ho, rfl, Rule.ref_str_bytes, Rule.string_byte_vec⟩

/-- Concrete run of the text-to-byte bridge on the text "hello": the pinned
byte views are byte-identical to the encoding and reuse the storage. -/
theorem c2_text_to_bytes_zero_copy_witness :
    helloHeap (intoPinStrBytes ⟨0⟩).addr = utf8Encode helloBytes
  ∧ (intoPinStrBytes ⟨0⟩).addr = MStrRef.addr ⟨0⟩
  ∧ helloHeap (intoPinStringByteVec ⟨1⟩).addr = utf8Encode helloBytes
  ∧ (intoPinStringByteVec ⟨1⟩).addr = MString.addr ⟨1⟩
  ∧ Rule true (.ref (.atom .strC)) (.pin (.ref (.atom .bytesC)))
  ∧ Rule true .string (.pin .vec) :=
  c2_text_to_bytes_zero_copy helloHeap ⟨0⟩ ⟨1⟩ helloBytes helloBytes rfl rfl

/-- C8: the supported fixed-array lengths are exactly 0 through 32; for each
of them the table has the three array-to-slice-view rules; length 33 has no
array-to-slice rule; and the slice view reads the source array's own buffer,
so its contents and element order are the source's. -/
theorem c8_fixed_array_coverage :
    (∀ n : Nat, n ∈ arrayLens ↔ n ≤ 32)
  ∧ (∀ n : Nat, n ∈ arrayLens →
      Rule true (.ref (.arr n)) (.pin (.ref (.atom .elem)))
      ∧ Rule true (.mref (.arr n)) (.pin (.ref (.atom .elem)))
      ∧ Rule true (.mref (.arr n)) (.pin (.mref (.atom .elem))))
  ∧ (∀ r : Bool, ¬ Rule r (.ref (.arr 33)) (.pin (.ref (.atom .elem))))
  ∧ (∀ (h : Heap) (n : Nat) (a : MArr n), h (intoPinArrSlice a).addr = h a.addr) := by
  refine ⟨?_, ?_, ?_, fun h n a => rfl⟩
  · intro n
    simp only [arrayLens, List.mem_cons, List.not_mem_nil, or_false]
    omega
  · intro n hn
    exact ⟨Rule.ref_arr_slice n rfl hn, Rule.mref_arr_slice n rfl hn,
      Rule.mref_arr_mut_slice n rfl hn⟩
  · intro r h
    cases h <;> simp_all [arrayLens]

/-- C6: with an immutable guard outstanding, acquiring the mutable guard
fails deterministically with the distinct borrow-conflict error; once the
last such guard releases, acquisition succeeds on the same cell value;
acquisition only ever succeeds when no guard is outstanding (never silent
aliasing); and the engine's wrap of an acquired guard (pinned.rs 679-684)
returns it unchanged, adding nothing to the cell's own check. -/
theorem c6_guard_conflict_propagated (c : MCell) (n : Nat)
    (hn : c.state = .reading (n + 1)) :
    acquireMut c = .error .conflict
  ∧ (n = 0 → acquireMut (releaseShared c) =
      .ok { value := c.value, state := .writing })
  ∧ (∀ c1 c2 : MCell, acquireMut c1 = .ok c2 → c1.state = .free ∧ c2.value = c1.value)
  ∧ (∀ g : MRefMutGuard, (intoPinRefMutGuard g).guard = g) := by
  refine ⟨?_, ?_, ?_, fun g => rfl⟩
  · simp [acquireMut, hn]
  · intro h0
    subst h0
    simp [releaseShared, acquireMut, hn]
  · intro c1 c2 hok
    cases hs : c1.state with
    | free =>
      simp [acquireMut, hs] at hok
      exact ⟨rfl, by rw [← hok]⟩
    | reading m => simp [acquireMut, hs] at hok
    | writing => simp [acquireMut, hs] at hok

/-- Concrete run of the guard conflict on a cell holding 9 with one
immutable guard outstanding. -/
theorem c6_guard_conflict_witness :
    acquireMut ⟨9, .reading 1⟩ = .error .conflict
  ∧ (0 = 0 → acquireMut (releaseShared ⟨9, .reading 1⟩) =
      .ok { value := MCell.value ⟨9, .reading 1⟩, state := .writing })
  ∧ (∀ c1 c2 : MCell, acquireMut c1 = .ok c2 → c1.state = .free ∧ c2.value = c1.value)
  ∧ (∀ g : MRefMutGuard, (intoPinRefMutGuard g).guard = g) :=
  c6_guard_conflict_propagated ⟨9, .reading 1⟩ 0 rfl

/-- C1 counterexample: the table has no rule converting an exclusive
reference to a shared-ownership handle (Rc or Arc, with a relocatable
payload) into an exclusive mutable pin of the payload: the copy-on-write
conversion the claim describes does not exist in src/src/pinned.rs. -/
theorem c1_no_shared_to_mut_pin_rule :
    ¬ Rule true (.mref (.rc (.atom .elem))) (.pin (.mref (.atom .elem)))
  ∧ ¬ Rule true (.mref (.arc (.atom .elem))) (.pin (.mref (.atom .elem))) := by
  constructor <;> · intro h; cases h

/-- C1 amended: no rule of the table converts a shape going through a
shared-ownership handle (Rc or Arc) into an exclusive mutable pin of the
payload; the Rc and Arc rules the table does provide yield the pinned handle
itself or immutable pinned references to the payload, never a mutable pin,
and so never clone. -/
theorem c1_shared_handles_yield_immutable_pins :
    (∀ (r : Bool) (s t : Shape), Rule r s t → containsShared s = true →
      t ≠ .pin (.mref (.atom .elem)))
  ∧ Rule true (.mref (.rc (.atom .elem))) (.pin (.ref (.atom .elem)))
  ∧ Rule true (.mref (.arc (.atom .elem))) (.pin (.ref (.atom .elem)))
  ∧ Rule true (.ref (.rc (.atom .elem))) (.pin (.ref (.atom .elem)))
  ∧ Rule true (.ref (.arc (.atom .elem))) (.pin (.ref (.atom .elem)))
  ∧ Rule true (.rc (.atom .elem)) (.pin (.rc (.atom .elem)))
  ∧ Rule true (.arc (.atom .elem)) (.pin (.arc (.atom .elem))) := by
  refine ⟨?_, Rule.mref_rc _ rfl, Rule.mref_arc _ rfl, Rule.ref_rc _ rfl,
    Rule.ref_arc _ rfl, Rule.rc_self _ rfl, Rule.arc_self _ rfl⟩
  intro r s t h hs heq
  subst heq
  cases h <;> simp_all [containsShared]

/-- C3: a mutable pinned reference is produced from an exclusive reference
only when the element type is Unpin: the reference-to-mutable-pin rules of
IntoPin (pinned.rs 132) and the slice rule of AsPinMut (lib.rs 108) hold
exactly when the tag is set — the gate is a bound on the impl, rejected
before any runtime effect — and every table rule from an exclusive
reference whose target is a mutable pin requires its element to be Unpin. -/
theorem c3_mut_pin_requires_relocatable :
    (∀ r : Bool, Rule r (.mref (.atom .elem)) (.pin (.mref (.atom .elem))) ↔ r = true)
  ∧ (∀ r : Bool, AsPinMutRule r (.atom .elem) (.atom .elem) ↔ r = true)
  ∧ (∀ (r : Bool) (s t x : Shape), Rule r (.mref s) t → t = .pin (.mref x) →
      shapeUnpin r x = true) := by
  refine ⟨?_, ?_, ?_⟩
  · intro r
    constructor
    · intro h
      cases h <;> simp_all [shapeUnpin]
    · intro hr
      exact Rule.mref_wrap _ (by simp [shapeUnpin, hr])
  · intro r
    constructor
    · intro h
      cases h
      assumption
    · intro hr
      exact AsPinMutRule.slice hr
  · intro r s t x h ht
    subst ht
    cases h <;> simp_all [shapeUnpin]

/-- C4 counterexample: the immutable-view rule from a shared reference
(pinned.rs 118) bounds the element type by Unpin, so for a non-relocatable
element the immutable pinned reference cannot be obtained from a reference:
the as-pinned capability is not available regardless of the tag. -/
theorem c4_imm_pin_rejects_non_relocatable :
    ¬ Rule false (.ref (.atom .elem)) (.pin (.ref (.atom .elem))) := by
  intro h
  cases h <;> simp_all [shapeUnpin]

/-- C4 amended: the immutable as-pinned rules from shared and from exclusive
references exist but are gated by the Unpin (Relocatable) tag exactly like
the mutable ones; the path that needs no tag is the owning Box conversion
(pinned.rs 144 and 445), which carries no Unpin bound. -/
theorem c4_imm_pin_gated_like_mut :
    (∀ r : Bool, Rule r (.ref (.atom .elem)) (.pin (.ref (.atom .elem))) ↔ r = true)
  ∧ (∀ r : Bool, Rule r (.mref (.atom .elem)) (.pin (.ref (.atom .elem))) ↔ r = true)
  ∧ (∀ r : Bool, Rule r (.atom .elem) (.pin (.boxed (.atom .elem))))
  ∧ (∀ r : Bool, Rule r (.boxed (.atom .elem)) (.pin (.boxed (.atom .elem)))) := by
  refine ⟨?_, ?_, fun r => Rule.val_box _, fun r => Rule.box_self _⟩
  · intro r
    constructor
    · intro h
      cases h <;> simp_all [shapeUnpin]
    · intro hr
      exact Rule.ref_wrap _ (by simp [shapeUnpin, hr])
  · intro r
    constructor
    · intro h
      cases h <;> simp_all [shapeUnpin]
    · intro hr
      exact Rule.mref_narrow _ (by simp [shapeUnpin, hr])

/-- C5: the mutable-to-immutable narrowing rules are provided for every
element shape (from a mutable pin, pinned.rs 67, and from an exclusive
reference, pinned.rs 125), and narrowing is one-directional: no sequence of
table rules and borrows creates mutable access to the pinned content out of
a shape that lacks it, so neither an immutable pin nor a shared reference
ever reaches an exclusive mutable pin of the element. -/
theorem c5_narrowing_one_directional :
    (∀ (r : Bool) (s : Shape), shapeUnpin r s = true →
      Rule r (.pin (.mref s)) (.pin (.ref s)))
  ∧ (∀ (r : Bool) (s : Shape), shapeUnpin r s = true →
      Rule r (.mref s) (.pin (.ref s)))
  ∧ (∀ (r : Bool) (s t : Shape), mutAccess s = false → Reach r s t →
      mutAccess t = false)
  ∧ (∀ r : Bool, ¬ Reach r (.pin (.ref (.atom .elem))) (.pin (.mref (.atom .elem))))
  ∧ (∀ r : Bool, ¬ Reach r (.ref (.atom .elem)) (.pin (.mref (.atom .elem)))) := by
  refine ⟨fun r s h => Rule.pin_mut_narrow s h, fun r s h => Rule.mref_narrow s h,
    fun r s t hs hr => reach_preserves_mut_access hr hs, ?_, ?_⟩
  · intro r h
    have hend := reach_preserves_mut_access h (by simp [mutAccess])
    simp [mutAccess] at hend
  · intro r h
    have hend := reach_preserves_mut_access h (by simp [mutAccess])
    simp [mutAccess] at hend

/-- C10: the Cow text to Cow bytes conversion (pinned.rs 528-536) preserves
the ownership variant, reuses the storage address in both arms (no clone and
no new allocation), the resulting bytes are the text's encoded form, and the
corresponding table rule exists. -/
theorem c10_cow_variant_preserved :
    (∀ b : MStrRef, intoPinCowStrBytes (.borrowed b) = .borrowed ⟨b.addr⟩)
  ∧ (∀ o : MString, intoPinCowStrBytes (.owned o) = .owned ⟨o.addr⟩)
  ∧ (∀ c : MCowStr, cowBytesIsOwned (intoPinCowStrBytes c) = cowStrIsOwned c
      ∧ cowBytesAddr (intoPinCowStrBytes c) = cowStrAddr c)
  ∧ (∀ (h : Heap) (c : MCowStr) (cs : List Nat), cowStrHolds h c cs →
      h (cowBytesAddr (intoPinCowStrBytes c)) = utf8Encode cs)
  ∧ (∀ r : Bool, Rule r (.cow (.atom .strC)) (.pin (.cow (.atom .bytesC)))) := by
  refine ⟨fun b => rfl, fun o => rfl, ?_, ?_, fun r => Rule.cow_str_bytes⟩
  · intro c
    cases c <;> simp [intoPinCowStrBytes, cowBytesIsOwned, cowStrIsOwned,
      cowBytesAddr, cowStrAddr, strAsBytes, stringIntoBytes]
  · intro h c cs hc
    cases c with
    | borrowed b =>
      simpa [intoPinCowStrBytes, cowBytesAddr, strAsBytes, strRefHolds] using hc
    | owned o =>
      simpa [intoPinCowStrBytes, cowBytesAddr, stringIntoBytes, stringHolds] using hc
